import Mathlib

set_option maxRecDepth 8192

/-
Verification of the service worker in Service-Worker.js: a shallow embedding
of its router, four caching strategies, and cache lifecycle, with theorems
about their behaviour.

Modelling conventions:
  - A response is a snapshot (status, content type, body).  The network
    transport is modelled as Option Response (none = transport failure /
    promise rejection), or Nat -> Option Response when a handler may issue
    several fetches; strategies additionally return the number of fetch
    calls they performed.
  - The global cache collection (the CacheStorage object) is an ordered
    association list of named stores; a store is an ordered association
    list from request URL to response.
  - Strategies are linearised: awaited steps happen in program order, and
    fire-and-forget writes are applied before the result is delivered,
    which is sound for the final-state properties proved here.
  - The JavaScript truthiness of the expression
    cached OR networkPromise OR fetch(request)
    in staleWhileRevalidate is embedded faithfully with the JsVal type:
    a promise object is a truthy value regardless of what it resolves to.
-/

namespace ServiceWorker

/-- A stored or fetched response snapshot: status, content type, body. -/
structure Response where
  status : Nat
  contentType : String
  body : String
deriving DecidableEq, Repr

/-- A single named cache store: request URL to response. -/
abbrev Store := List (String × Response)

/-- The CacheStorage collection: ordered list of named stores. -/
abbrev Caches := List (String × Store)

/-- The current cache version name, CACHE_NAME in the source. -/
def CACHE_NAME : String := "awc-cache-v2"

/-- The canonical entry document key, ENTRY_HTML in the source. -/
def ENTRY_HTML : String := "/index.html"

/-- The precache manifest, PRECACHE_ASSETS in the source. -/
def PRECACHE_ASSETS : List String :=
  ["/", ENTRY_HTML, "/manifest.json", "/icons/icon-192.png",
   "/icons/icon-512.png", "/icons/apple-touch-icon-180.png"]

/-- Look up a key in a store (cache.match on a single store). -/
def storeMatch (k : String) : Store → Option Response
  | [] => none
  | (k2, r) :: rest => if k2 = k then some r else storeMatch k rest

/-- Write a key into a store, overwriting an existing entry (cache.put). -/
def storePut (k : String) (r : Response) : Store → Store
  | [] => [(k, r)]
  | (k2, r2) :: rest =>
      if k2 = k then (k, r) :: rest else (k2, r2) :: storePut k r rest

/-- Does the collection contain a store of the given name. -/
def cachesHas (n : String) : Caches → Bool
  | [] => false
  | (n2, _) :: rest => if n2 = n then true else cachesHas n rest

/-- The contents of the named store (empty if absent). -/
def cachesGet (n : String) : Caches → Store
  | [] => []
  | (n2, s) :: rest => if n2 = n then s else cachesGet n rest

/-- caches.open: create the named store lazily if it does not exist. -/
def cachesOpen (n : String) (cs : Caches) : Caches :=
  if cachesHas n cs then cs else cs ++ [(n, [])]

/-- Write a key into the named store. -/
def cachesPut (n k : String) (r : Response) : Caches → Caches
  | [] => []
  | (n2, s) :: rest =>
      if n2 = n then (n2, storePut k r s) :: cachesPut n k r rest
      else (n2, s) :: cachesPut n k r rest

/-- caches.match: search every store in order for the key. -/
def cachesMatchAll (k : String) : Caches → Option Response
  | [] => none
  | (_, s) :: rest =>
      match storeMatch k s with
      | some r => some r
      | none => cachesMatchAll k rest

/-- caches.keys: the list of store names. -/
def cachesKeys (cs : Caches) : List String := cs.map (fun p => p.1)

/-- A JavaScript value as seen by the truthiness test of the logical-or
operator: undefined, a response object, or a promise object carrying the
value it will eventually settle to (none when it resolves to undefined). -/
inductive JsVal where
  | undef : JsVal
  | resp : Response → JsVal
  | prom : Option Response → JsVal
deriving DecidableEq, Repr

/-- JavaScript truthiness: undefined is falsy, every object (a response or a
promise, regardless of what it will settle to) is truthy. -/
def JsVal.truthy : JsVal → Bool
  | .undef => false
  | .resp _ => true
  | .prom _ => true

/-- Awaiting a JavaScript value: a plain response stays itself, undefined
stays absent, and a promise yields its settled value. -/
def awaitJs : JsVal → Option Response
  | .undef => none
  | .resp r => some r
  | .prom o => o

/-- Injection of an awaited cache.match result into the value world. -/
def jsOfOption : Option Response → JsVal
  | some r => JsVal.resp r
  | none => JsVal.undef

/-- A request descriptor as inspected by the fetch listener: method, mode,
origin and pathname of the parsed URL, and the full URL used as cache key. -/
structure Request where
  method : String
  mode : String
  origin : String
  pathname : String
  url : String
deriving DecidableEq, Repr

/-- Suffix test on strings, via their character lists.  This is the anchored
end-of-string match performed by the source regexes. -/
def strEndsWith (s suffix : String) : Bool :=
  List.isSuffixOf suffix.data s.data

/-- Test of the source regex matching pathnames ending in .css or .js
(case sensitive). -/
def isStyleScriptPath (p : String) : Bool :=
  strEndsWith p ".css" || strEndsWith p ".js"

/-- Test of the source regex matching pathnames ending in a known image
extension (case sensitive). -/
def isImagePath (p : String) : Bool :=
  strEndsWith p ".png" || strEndsWith p ".jpg" || strEndsWith p ".jpeg" ||
  strEndsWith p ".gif" || strEndsWith p ".webp" || strEndsWith p ".svg" ||
  strEndsWith p ".ico"

/-- The five possible outcomes of the fetch listener: pass through without
calling respondWith, or dispatch to one of the four strategies. -/
inductive Strategy where
  | passThrough : Strategy
  | networkFirstNav : Strategy
  | staleWhileReval : Strategy
  | cacheFirstStrat : Strategy
  | networkWithFallback : Strategy
deriving DecidableEq, Repr

/-- The routing decision of the fetch listener, in source order: non-GET
requests return early; navigations go to networkFirstNavigation; same-origin
style and script paths go to staleWhileRevalidate; same-origin image paths
go to cacheFirst; everything else goes to the default network-with-fallback
expression. -/
def classify (selfOrigin : String) (req : Request) : Strategy :=
  if req.method ≠ "GET" then Strategy.passThrough
  else if req.mode = "navigate" then Strategy.networkFirstNav
  else if req.origin = selfOrigin ∧ isStyleScriptPath req.pathname then
    Strategy.staleWhileReval
  else if req.origin = selfOrigin ∧ isImagePath req.pathname then
    Strategy.cacheFirstStrat
  else Strategy.networkWithFallback

/-- The synthesized minimal offline document of networkFirstNavigation:
a Response constructed with default status 200 and an HTML content type. -/
def offlineResponse : Response :=
  { status := 200
    contentType := "text/html; charset=utf-8"
    body := "<!doctype html><html><head><meta charset=\"utf-8\"><title>Offline</title><meta name=\"viewport\" content=\"width=device-width, initial-scale=1\"/></head><body><h1>Offline</h1><p>The app is unavailable offline for this page.</p></body></html>" }

/-- networkFirstNavigation: try the network; on success write the fresh
response under ENTRY_HTML into the current store and return it; on failure
return the stored ENTRY_HTML entry, else the stored root entry, else the
synthesized offline document.  The net argument is the outcome of the single
fetch of the request (none = transport failure). -/
def networkFirstNavigation (request : String) (net : Option Response)
    (cs : Caches) : Response × Caches :=
  match net with
  | some fresh =>
      (fresh, cachesPut CACHE_NAME ENTRY_HTML fresh (cachesOpen CACHE_NAME cs))
  | none =>
      match cachesMatchAll ENTRY_HTML cs with
      | some c => (c, cs)
      | none =>
          match cachesMatchAll "/" cs with
          | some c => (c, cs)
          | none => (offlineResponse, cs)

/-- The return line of staleWhileRevalidate,
cached OR networkPromise OR fetch(request), with JavaScript truthiness and
short-circuit evaluation; lastFetch is forced only when both operands before
it are falsy.  Returns the awaited result of the async function (error when
the returned value is a rejecting promise) and the total number of fetch
calls the whole strategy made. -/
def swrReturnLine (cached : Option Response) (networkPromise : JsVal)
    (lastFetch : Unit → Option Response) : Except Unit (Option Response) × Nat :=
  if (jsOfOption cached).truthy then (Except.ok (awaitJs (jsOfOption cached)), 1)
  else if networkPromise.truthy then (Except.ok (awaitJs networkPromise), 1)
  else
    match lastFetch () with
    | some r => (Except.ok (some r), 2)
    | none => (Except.error (), 2)

/-- staleWhileRevalidate: open the current store, look the request up,
issue a revalidating fetch whose success overwrites the entry and whose
failure is swallowed, and return per the source line
cached OR networkPromise OR fetch(request).  The net argument gives the
outcome of the i-th fetch call. -/
def staleWhileRevalidate (request : String) (net : Nat → Option Response)
    (cs : Caches) : Except Unit (Option Response) × Caches × Nat :=
  let cs1 := cachesOpen CACHE_NAME cs
  let cached := storeMatch request (cachesGet CACHE_NAME cs1)
  let cs2 :=
    match net 0 with
    | some res => cachesPut CACHE_NAME request res cs1
    | none => cs1
  let ret := swrReturnLine cached (JsVal.prom (net 0)) (fun _ => net 1)
  (ret.1, cs2, ret.2)

/-- cacheFirst: return the cached entry when present without touching the
network; otherwise fetch (uncaught: a transport failure rejects), write the
response into the store and return it.  The last component counts fetch
calls. -/
def cacheFirst (request : String) (net : Option Response) (cs : Caches) :
    Except Unit Response × Caches × Nat :=
  match storeMatch request (cachesGet CACHE_NAME (cachesOpen CACHE_NAME cs)) with
  | some c => (Except.ok c, cachesOpen CACHE_NAME cs, 0)
  | none =>
      match net with
      | some res =>
          (Except.ok res,
           cachesPut CACHE_NAME request res (cachesOpen CACHE_NAME cs), 1)
      | none => (Except.error (), cachesOpen CACHE_NAME cs, 1)

/-- The default branch, fetch(req).catch(() => caches.match(req)): the
network response on success, otherwise whatever caches.match finds; the
rejection itself is caught, so an absent entry surfaces as an absent
response (the caller receives no usable response).  Never writes. -/
def networkWithCacheFallback (request : String) (net : Option Response)
    (cs : Caches) : Option Response × Caches :=
  match net with
  | some r => (some r, cs)
  | none => (cachesMatchAll request cs, cs)

/-- The writes performed by cache.addAll: each successfully fetched path is
put into the current store. -/
def addAllWrites (net : String → Option Response) :
    List String → Caches → Caches
  | [], cs => cs
  | p :: rest, cs =>
      match net p with
      | some r => addAllWrites net rest (cachesPut CACHE_NAME p r cs)
      | none => addAllWrites net rest cs

/-- The install step: open the current store and addAll the precache
manifest; a failed fetch of any single asset rejects the whole step (addAll
commits its writes only when every fetch succeeded). -/
def install (net : String → Option Response) (cs : Caches) :
    Except Unit Caches :=
  if PRECACHE_ASSETS.all (fun p => (net p).isSome) then
    Except.ok (addAllWrites net PRECACHE_ASSETS (cachesOpen CACHE_NAME cs))
  else Except.error ()

/-- The activate step: delete every store whose name is not CACHE_NAME. -/
def activate : Caches → Caches
  | [] => []
  | (n, s) :: rest =>
      if n = CACHE_NAME then (n, s) :: activate rest else activate rest

/-! Basic store and collection lemmas. -/

theorem storeMatch_storePut_self (k : String) (r : Response) (s : Store) :
    storeMatch k (storePut k r s) = some r := by
  induction s with
  | nil => simp [storePut, storeMatch]
  | cons hd tl ih =>
      obtain ⟨k2, r2⟩ := hd
      by_cases h : k2 = k
      · subst h
        simp [storePut, storeMatch]
      · simp [storePut, storeMatch, h, ih]

theorem storeMatch_storePut_ne (k k2 : String) (r : Response) (s : Store)
    (h : k2 ≠ k) : storeMatch k2 (storePut k r s) = storeMatch k2 s := by
  induction s with
  | nil => simp [storePut, storeMatch, Ne.symm h]
  | cons hd tl ih =>
      obtain ⟨k3, r3⟩ := hd
      by_cases h3 : k3 = k
      · subst h3
        simp [storePut, storeMatch, Ne.symm h]
      · by_cases h4 : k3 = k2
        · subst h4
          simp [storePut, storeMatch, h3]
        · simp [storePut, storeMatch, h3, h4, ih]

theorem storeMatch_storePut_isSome (k k2 : String) (r : Response) (s : Store)
    (h : (storeMatch k2 s).isSome = true) :
    (storeMatch k2 (storePut k r s)).isSome = true := by
  by_cases hk : k2 = k
  · subst hk
    simp [storeMatch_storePut_self]
  · rw [storeMatch_storePut_ne k k2 r s hk]
    exact h

theorem cachesHas_append_self (n : String) (cs : Caches) :
    cachesHas n (cs ++ [(n, [])]) = true := by
  induction cs with
  | nil => simp [cachesHas]
  | cons hd tl ih =>
      obtain ⟨n2, s2⟩ := hd
      by_cases h2 : n2 = n <;> simp [cachesHas, h2, ih]

theorem cachesHas_open (n : String) (cs : Caches) :
    cachesHas n (cachesOpen n cs) = true := by
  unfold cachesOpen
  by_cases h : cachesHas n cs = true
  · simp [h]
  · rw [Bool.not_eq_true] at h
    simp [h, cachesHas_append_self]

theorem cachesHas_put (n n2 k : String) (r : Response) (cs : Caches) :
    cachesHas n2 (cachesPut n k r cs) = cachesHas n2 cs := by
  induction cs with
  | nil => simp [cachesPut]
  | cons hd tl ih =>
      obtain ⟨n3, s3⟩ := hd
      by_cases h : n3 = n <;> by_cases h2 : n3 = n2 <;>
        first
          | (subst h2; simp [cachesPut, cachesHas, h, ih])
          | simp [cachesPut, cachesHas, h, h2, ih]

theorem cachesGet_put_self (n k : String) (r : Response) (cs : Caches)
    (h : cachesHas n cs = true) :
    cachesGet n (cachesPut n k r cs) = storePut k r (cachesGet n cs) := by
  induction cs with
  | nil => simp [cachesHas] at h
  | cons hd tl ih =>
      obtain ⟨n2, s2⟩ := hd
      by_cases h2 : n2 = n
      · subst h2
        simp [cachesPut, cachesGet]
      · simp [cachesHas, h2] at h
        simp [cachesPut, cachesGet, h2, ih h]

theorem cachesGet_of_not_has (n : String) (cs : Caches)
    (h : cachesHas n cs = false) : cachesGet n cs = [] := by
  induction cs with
  | nil => simp [cachesGet]
  | cons hd tl ih =>
      obtain ⟨n2, s2⟩ := hd
      by_cases h2 : n2 = n
      · subst h2
        simp [cachesHas] at h
      · simp [cachesHas, h2] at h
        simp [cachesGet, h2, ih h]

theorem cachesGet_append (n : String) (cs ds : Caches) :
    cachesGet n (cs ++ ds) =
      if cachesHas n cs then cachesGet n cs else cachesGet n ds := by
  induction cs with
  | nil => simp [cachesGet, cachesHas]
  | cons hd tl ih =>
      obtain ⟨n2, s2⟩ := hd
      by_cases h2 : n2 = n
      · subst h2
        simp [cachesGet, cachesHas]
      · simp [cachesGet, cachesHas, h2, ih]

theorem cachesGet_open (n : String) (cs : Caches) :
    cachesGet n (cachesOpen n cs) = cachesGet n cs := by
  unfold cachesOpen
  by_cases h : cachesHas n cs = true
  · simp [h]
  · rw [Bool.not_eq_true] at h
    simp [h, cachesGet_append, cachesGet_of_not_has n cs h, cachesGet]

theorem cachesGet_open_put (n k : String) (r : Response) (cs : Caches) :
    cachesGet n (cachesPut n k r (cachesOpen n cs)) =
      storePut k r (cachesGet n cs) := by
  rw [cachesGet_put_self n k r (cachesOpen n cs) (cachesHas_open n cs),
    cachesGet_open]

/-! Activation lemmas. -/

theorem mem_cachesKeys_activate (n : String) (cs : Caches)
    (h : n ∈ cachesKeys (activate cs)) : n = CACHE_NAME := by
  induction cs with
  | nil => simp [activate, cachesKeys] at h
  | cons hd tl ih =>
      obtain ⟨n2, s2⟩ := hd
      by_cases h2 : n2 = CACHE_NAME
      · subst h2
        simp [activate, cachesKeys] at h
        rcases h with h | h
        · exact h
        · exact ih (by simpa [cachesKeys] using h)
      · simp [activate, h2] at h
        exact ih h

theorem cachesGet_activate (cs : Caches) :
    cachesGet CACHE_NAME (activate cs) = cachesGet CACHE_NAME cs := by
  induction cs with
  | nil => simp [activate]
  | cons hd tl ih =>
      obtain ⟨n2, s2⟩ := hd
      by_cases h2 : n2 = CACHE_NAME
      · subst h2
        simp [activate, cachesGet]
      · simp [activate, cachesGet, h2, ih]

/-! Install lemmas. -/

theorem cachesHas_addAllWrites (net : String → Option Response)
    (paths : List String) (cs : Caches)
    (h : cachesHas CACHE_NAME cs = true) :
    cachesHas CACHE_NAME (addAllWrites net paths cs) = true := by
  induction paths generalizing cs with
  | nil => simpa [addAllWrites] using h
  | cons p rest ih =>
      cases hp : net p with
      | none => simp [addAllWrites, hp]; exact ih cs h
      | some r =>
          simp [addAllWrites, hp]
          exact ih _ (by rw [cachesHas_put]; exact h)

theorem presence_mono_addAllWrites (net : String → Option Response)
    (paths : List String) (cs : Caches) (p : String)
    (hhas : cachesHas CACHE_NAME cs = true)
    (h : (storeMatch p (cachesGet CACHE_NAME cs)).isSome = true) :
    (storeMatch p (cachesGet CACHE_NAME (addAllWrites net paths cs))).isSome
      = true := by
  induction paths generalizing cs with
  | nil => simpa [addAllWrites] using h
  | cons q rest ih =>
      cases hq : net q with
      | none => simp [addAllWrites, hq]; exact ih cs hhas h
      | some r =>
          simp [addAllWrites, hq]
          refine ih _ (by rw [cachesHas_put]; exact hhas) ?_
          rw [cachesGet_put_self CACHE_NAME q r cs hhas]
          exact storeMatch_storePut_isSome q p r _ h

theorem mem_addAllWrites_present (net : String → Option Response)
    (paths : List String) (cs : Caches) (p : String)
    (hhas : cachesHas CACHE_NAME cs = true)
    (hmem : p ∈ paths) (hp : (net p).isSome = true) :
    (storeMatch p (cachesGet CACHE_NAME (addAllWrites net paths cs))).isSome
      = true := by
  induction paths generalizing cs with
  | nil => simp at hmem
  | cons q rest ih =>
      rcases List.mem_cons.mp hmem with hq | hq
      · subst hq
        cases hnp : net p with
        | none => rw [hnp] at hp; simp at hp
        | some r =>
            simp [addAllWrites, hnp]
            refine presence_mono_addAllWrites net rest _ p
              (by rw [cachesHas_put]; exact hhas) ?_
            rw [cachesGet_put_self CACHE_NAME p r cs hhas,
              storeMatch_storePut_self]
            rfl
      · cases hnq : net q with
        | none => simp [addAllWrites, hnq]; exact ih cs hhas hq
        | some r =>
            simp [addAllWrites, hnq]
            exact ih _ (by rw [cachesHas_put]; exact hhas) hq

/-! Claim theorems. -/

/-- Claim C1: the router selects exactly one handling strategy per request,
checked in source order with first match winning: non-GET requests pass
through with no strategy invoked; navigations go to Network-First-Navigation;
same-origin style and script paths (case sensitive) go to
Stale-While-Revalidate; same-origin image paths go to Cache-First; every
other request goes to Network-With-Cache-Fallback.  classify is a function
into a five-way sum, so at most one strategy is ever produced for a single
request. -/
theorem router_selects_exactly_one (o : String) (r : Request) :
    (r.method ≠ "GET" → classify o r = Strategy.passThrough) ∧
    (r.method = "GET" → r.mode = "navigate" →
      classify o r = Strategy.networkFirstNav) ∧
    (r.method = "GET" → r.mode ≠ "navigate" → r.origin = o →
      isStyleScriptPath r.pathname = true →
      classify o r = Strategy.staleWhileReval) ∧
    (r.method = "GET" → r.mode ≠ "navigate" → r.origin = o →
      isStyleScriptPath r.pathname = false → isImagePath r.pathname = true →
      classify o r = Strategy.cacheFirstStrat) ∧
    (r.method = "GET" → r.mode ≠ "navigate" →
      (r.origin ≠ o ∨
        (isStyleScriptPath r.pathname = false ∧
         isImagePath r.pathname = false)) →
      classify o r = Strategy.networkWithFallback) := by
  refine ⟨fun h1 => ?_, fun h1 h2 => ?_, fun h1 h2 h3 h4 => ?_,
    fun h1 h2 h3 h4 h5 => ?_, fun h1 h2 h3 => ?_⟩
  · simp [classify, h1]
  · simp [classify, h1, h2]
  · simp [classify, h1, h2, h3, h4]
  · simp [classify, h1, h2, h3, h4, h5]
  · rcases h3 with h3 | ⟨h3, h4⟩
    · simp [classify, h1, h2, h3]
    · simp [classify, h1, h2, h3, h4]

/-- Witness for C1 at a concrete non-GET request. -/
theorem router_selects_exactly_one_witness :
    classify "https://app.example"
      { method := "POST", mode := "navigate", origin := "https://app.example",
        pathname := "/x", url := "https://app.example/x" } =
      Strategy.passThrough :=
  (router_selects_exactly_one "https://app.example"
    { method := "POST", mode := "navigate", origin := "https://app.example",
      pathname := "/x", url := "https://app.example/x" }).1 (by decide)

/-- Claim C2: on a successful navigation fetch, Network-First-Navigation
returns exactly the network response and writes it into the current store
under the canonical ENTRY_HTML key, not under the literal requested URL
(the entry of the requested URL itself is untouched when it differs from
the canonical key). -/
theorem networkFirstNavigation_success (req : String) (fresh : Response)
    (cs : Caches) (hreq : req ≠ ENTRY_HTML) :
    (networkFirstNavigation req (some fresh) cs).1 = fresh ∧
    storeMatch ENTRY_HTML
        (cachesGet CACHE_NAME (networkFirstNavigation req (some fresh) cs).2)
      = some fresh ∧
    storeMatch req
        (cachesGet CACHE_NAME (networkFirstNavigation req (some fresh) cs).2)
      = storeMatch req (cachesGet CACHE_NAME cs) := by
  refine ⟨rfl, ?_, ?_⟩
  · simp [networkFirstNavigation, cachesGet_open_put, storeMatch_storePut_self]
  · simp [networkFirstNavigation, cachesGet_open_put,
      storeMatch_storePut_ne ENTRY_HTML req fresh (cachesGet CACHE_NAME cs)
        hreq]

/-- Witness for C2 at a concrete navigation to a non-canonical URL. -/
theorem networkFirstNavigation_success_witness :
    (networkFirstNavigation "/about"
        (some { status := 200, contentType := "text/html", body := "page" })
        []).1 =
      { status := 200, contentType := "text/html", body := "page" } ∧
    storeMatch ENTRY_HTML
        (cachesGet CACHE_NAME
          (networkFirstNavigation "/about"
            (some { status := 200, contentType := "text/html", body := "page" })
            []).2) =
      some { status := 200, contentType := "text/html", body := "page" } ∧
    storeMatch "/about"
        (cachesGet CACHE_NAME
          (networkFirstNavigation "/about"
            (some { status := 200, contentType := "text/html", body := "page" })
            []).2) =
      storeMatch "/about" (cachesGet CACHE_NAME []) :=
  networkFirstNavigation_success "/about"
    { status := 200, contentType := "text/html", body := "page" } []
    (by decide)

/-- Claim C3: on a failed navigation fetch, Network-First-Navigation returns
the stored canonical ENTRY_HTML entry if one is found, else the stored root
entry, else the synthesized offline document, whose status is 200 (success)
and whose content declares offline unavailability; the fallback is total
(the strategy always returns a response, it never rejects). -/
theorem networkFirstNavigation_failure (req : String) (cs : Caches)
    (c : Response) :
    (cachesMatchAll ENTRY_HTML cs = some c →
      (networkFirstNavigation req none cs).1 = c) ∧
    (cachesMatchAll ENTRY_HTML cs = none → cachesMatchAll "/" cs = some c →
      (networkFirstNavigation req none cs).1 = c) ∧
    (cachesMatchAll ENTRY_HTML cs = none → cachesMatchAll "/" cs = none →
      (networkFirstNavigation req none cs).1 = offlineResponse) ∧
    offlineResponse.status = 200 ∧
    (∃ pre post : String,
      offlineResponse.body = pre ++ "Offline" ++ post) := by
  refine ⟨fun h => ?_, fun h1 h2 => ?_, fun h1 h2 => ?_, rfl, ?_⟩
  · simp [networkFirstNavigation, h]
  · simp [networkFirstNavigation, h1, h2]
  · simp [networkFirstNavigation, h1, h2]
  · exact ⟨"<!doctype html><html><head><meta charset=\"utf-8\"><title>",
      "</title><meta name=\"viewport\" content=\"width=device-width, initial-scale=1\"/></head><body><h1>Offline</h1><p>The app is unavailable offline for this page.</p></body></html>",
      by decide⟩

/-- Witness for C3 at a concrete offline navigation over empty caches. -/
theorem networkFirstNavigation_failure_witness :
    (networkFirstNavigation "/about" none []).1 = offlineResponse :=
  (networkFirstNavigation_failure "/about" [] offlineResponse).2.2.1
    (by decide) (by decide)

/-- Counterexample to claim C4: with no cached entry, a failing in-flight
fetch (call 0) and a network that would answer a second fetch (call 1) with
a fresh script, the strategy still resolves with no response and performs
exactly one fetch call: the final-resort fetch in the source return line is
never evaluated, because the in-flight promise object is truthy regardless
of how it settles. -/
theorem swr_final_fetch_counterexample :
    (staleWhileRevalidate "/app.js"
        (fun i => if i = 0 then none
          else some ⟨200, "text/javascript", "fresh"⟩) []).1 = Except.ok none ∧
    (staleWhileRevalidate "/app.js"
        (fun i => if i = 0 then none
          else some ⟨200, "text/javascript", "fresh"⟩) []).2.2 = 1 := by
  exact ⟨rfl, rfl⟩

/-- Claim C4 as amended: a cached entry is returned immediately regardless
of the concurrent fetch; with no cached entry the strategy resolves to
whatever the in-flight fetch resolves to, including no response when it
fails; the strategy always performs exactly one fetch call, so no final
direct fetch ever happens. -/
theorem staleWhileRevalidate_amended (req : String)
    (net : Nat → Option Response) (cs : Caches) (c : Response) :
    (storeMatch req (cachesGet CACHE_NAME cs) = some c →
      (staleWhileRevalidate req net cs).1 = Except.ok (some c)) ∧
    (storeMatch req (cachesGet CACHE_NAME cs) = none →
      (staleWhileRevalidate req net cs).1 = Except.ok (net 0)) ∧
    (staleWhileRevalidate req net cs).2.2 = 1 := by
  refine ⟨fun h => ?_, fun h => ?_, ?_⟩
  · simp [staleWhileRevalidate, cachesGet_open, h, swrReturnLine, jsOfOption,
      JsVal.truthy, awaitJs]
  · simp [staleWhileRevalidate, cachesGet_open, h, swrReturnLine, jsOfOption,
      JsVal.truthy, awaitJs]
  · cases h : storeMatch req (cachesGet CACHE_NAME (cachesOpen CACHE_NAME cs)) <;>
      simp [staleWhileRevalidate, h, swrReturnLine, jsOfOption, JsVal.truthy]

/-- Witness for the amended C4 at a concrete cache hit with a failing
revalidation fetch. -/
theorem staleWhileRevalidate_amended_witness :
    (staleWhileRevalidate "/app.js" (fun _ => none)
        [(CACHE_NAME, [("/app.js", ⟨200, "text/javascript", "old"⟩)])]).1 =
      Except.ok (some ⟨200, "text/javascript", "old"⟩) :=
  (staleWhileRevalidate_amended "/app.js" (fun _ => none)
    [(CACHE_NAME, [("/app.js", ⟨200, "text/javascript", "old"⟩)])]
    ⟨200, "text/javascript", "old"⟩).1 (by decide)

/-- Claim C5: Cache-First returns a present entry with zero fetch calls;
on a miss it performs exactly one fetch call, and when that fetch resolves
it returns the response and writes it into the store. -/
theorem cacheFirst_spec (req : String) (net : Option Response) (cs : Caches)
    (c r : Response) :
    (storeMatch req (cachesGet CACHE_NAME cs) = some c →
      (cacheFirst req net cs).1 = Except.ok c ∧
      (cacheFirst req net cs).2.2 = 0) ∧
    (storeMatch req (cachesGet CACHE_NAME cs) = none →
      (cacheFirst req net cs).2.2 = 1 ∧
      (net = some r →
        (cacheFirst req net cs).1 = Except.ok r ∧
        storeMatch req (cachesGet CACHE_NAME (cacheFirst req net cs).2.1)
          = some r)) := by
  refine ⟨fun h => ?_, fun h => ⟨?_, fun hr => ?_⟩⟩
  · simp [cacheFirst, cachesGet_open, h]
  · cases net <;> simp [cacheFirst, cachesGet_open, h]
  · subst hr
    simp [cacheFirst, cachesGet_open, h, cachesGet_open_put,
      storeMatch_storePut_self]

/-- Witness for C5 at a concrete cache hit with a failing network. -/
theorem cacheFirst_spec_witness :
    (cacheFirst "/icons/icon-192.png" none
        [(CACHE_NAME,
          [("/icons/icon-192.png",
            { status := 200, contentType := "image/png", body := "png" })])]).1
      = Except.ok { status := 200, contentType := "image/png", body := "png" } ∧
    (cacheFirst "/icons/icon-192.png" none
        [(CACHE_NAME,
          [("/icons/icon-192.png",
            { status := 200, contentType := "image/png", body := "png" })])]).2.2
      = 0 :=
  (cacheFirst_spec "/icons/icon-192.png" none
    [(CACHE_NAME,
      [("/icons/icon-192.png",
        { status := 200, contentType := "image/png", body := "png" })])]
    { status := 200, contentType := "image/png", body := "png" }
    { status := 200, contentType := "image/png", body := "png" }).1
    (by decide)

/-- Claim C6: the default Network-With-Cache-Fallback expression returns the
network response on success and performs no cache write (the collection is
returned unchanged on every path); on network failure it returns the stored
entry found by caches.match when present; when that is also absent the
caller is left with no response, the recovered-from rejection surfacing as
an absent response to the original caller. -/
theorem networkWithCacheFallback_spec (req : String) (cs : Caches)
    (r c : Response) :
    networkWithCacheFallback req (some r) cs = (some r, cs) ∧
    (cachesMatchAll req cs = some c →
      networkWithCacheFallback req none cs = (some c, cs)) ∧
    (cachesMatchAll req cs = none →
      networkWithCacheFallback req none cs = (none, cs)) := by
  refine ⟨rfl, fun h => ?_, fun h => ?_⟩ <;>
    simp [networkWithCacheFallback, h]

/-- Witness for C6 at a concrete offline request with a stored entry. -/
theorem networkWithCacheFallback_spec_witness :
    networkWithCacheFallback "/data.json" none
        [(CACHE_NAME,
          [("/data.json",
            { status := 200, contentType := "application/json",
              body := "d" })])] =
      (some { status := 200, contentType := "application/json", body := "d" },
       [(CACHE_NAME,
         [("/data.json",
           { status := 200, contentType := "application/json",
             body := "d" })])]) :=
  (networkWithCacheFallback_spec "/data.json"
    [(CACHE_NAME,
      [("/data.json",
        { status := 200, contentType := "application/json", body := "d" })])]
    { status := 200, contentType := "application/json", body := "d" }
    { status := 200, contentType := "application/json", body := "d" }).2.1
    (by decide)

/-- Counterexample to claim C7: a same-origin GET image request is routed to
Cache-First, and with an empty store and a failing network fetch Cache-First
rejects, so the transport failure does propagate to the caller from a
strategy other than Network-With-Cache-Fallback. -/
theorem cacheFirst_propagates_failure_counterexample :
    classify "https://app.example"
      { method := "GET", mode := "no-cors", origin := "https://app.example",
        pathname := "/icons/icon-192.png",
        url := "https://app.example/icons/icon-192.png" } =
      Strategy.cacheFirstStrat ∧
    (cacheFirst "https://app.example/icons/icon-192.png" none []).1 =
      Except.error () := by
  exact ⟨by decide, rfl⟩

/-- Claim C7 as amended: Stale-While-Revalidate never rejects (a transport
failure there is swallowed, though on a store miss the caller then receives
no response rather than a synthesized one), while Cache-First rejects
exactly when the store has no entry for the request and the network fetch
fails; so transport-failure propagation is confined to
Network-With-Cache-Fallback and to Cache-First misses. -/
theorem transport_failure_amended (req : String) (net : Nat → Option Response)
    (n1 : Option Response) (cs : Caches) :
    (staleWhileRevalidate req net cs).1 ≠ Except.error () ∧
    ((cacheFirst req n1 cs).1 = Except.error () ↔
      storeMatch req (cachesGet CACHE_NAME cs) = none ∧ n1 = none) := by
  constructor
  · cases h : storeMatch req (cachesGet CACHE_NAME (cachesOpen CACHE_NAME cs)) <;>
      simp [staleWhileRevalidate, h, swrReturnLine, jsOfOption, JsVal.truthy]
  · cases h : storeMatch req (cachesGet CACHE_NAME cs) <;> cases n1 <;>
      simp [cacheFirst, cachesGet_open, h]

/-- Witness for the amended C7 at a concrete miss with failing network. -/
theorem transport_failure_amended_witness :
    (staleWhileRevalidate "/a.js" (fun _ => none) []).1 ≠ Except.error () ∧
    ((cacheFirst "/a.js" none []).1 = Except.error () ↔
      storeMatch "/a.js" (cachesGet CACHE_NAME []) = none ∧
      (none : Option Response) = none) :=
  transport_failure_amended "/a.js" (fun _ => none) none []

/-- Claim C8: after activation every store whose name differs from
CACHE_NAME has been deleted (every surviving name is CACHE_NAME), and every
entry of the current store is retrievable unchanged (the current store is
not modified at any key). -/
theorem activation_spec (cs : Caches) (n k : String) :
    (n ∈ cachesKeys (activate cs) → n = CACHE_NAME) ∧
    storeMatch k (cachesGet CACHE_NAME (activate cs)) =
      storeMatch k (cachesGet CACHE_NAME cs) :=
  ⟨fun h => mem_cachesKeys_activate n cs h, by rw [cachesGet_activate]⟩

/-- Witness for C8 with a concrete stale store alongside the current one. -/
theorem activation_spec_witness :
    CACHE_NAME ∈
      cachesKeys (activate
        [("old-cache-v1", []),
         (CACHE_NAME, [("/", ⟨200, "text/html", "root"⟩)])]) →
      CACHE_NAME = CACHE_NAME :=
  (activation_spec
    [("old-cache-v1", []),
     (CACHE_NAME, [("/", ⟨200, "text/html", "root"⟩)])] CACHE_NAME "/").1

/-- Claim C9: when every manifest path fetch succeeds, the install step
succeeds and every manifest path is resident in the current store
afterwards; when any single manifest path fetch fails, the whole install
step fails and commits nothing. -/
theorem install_spec (net : String → Option Response) (cs : Caches) :
    ((∀ p ∈ PRECACHE_ASSETS, (net p).isSome = true) →
      ∃ cs2, install net cs = Except.ok cs2 ∧
        ∀ p ∈ PRECACHE_ASSETS,
          (storeMatch p (cachesGet CACHE_NAME cs2)).isSome = true) ∧
    ((∃ p ∈ PRECACHE_ASSETS, net p = none) →
      install net cs = Except.error ()) := by
  constructor
  · intro hall
    refine ⟨addAllWrites net PRECACHE_ASSETS (cachesOpen CACHE_NAME cs),
      ?_, ?_⟩
    · simp [install, List.all_eq_true.mpr hall]
    · intro p hp
      exact mem_addAllWrites_present net PRECACHE_ASSETS
        (cachesOpen CACHE_NAME cs) p (cachesHas_open CACHE_NAME cs) hp
        (hall p hp)
  · rintro ⟨p, hp, hnone⟩
    have hfalse : PRECACHE_ASSETS.all (fun q => (net q).isSome) = false := by
      rw [Bool.eq_false_iff]
      intro hall
      have := List.all_eq_true.mp hall p hp
      rw [hnone] at this
      simp at this
    simp [install, hfalse]

/-- Witness for C9 with a network answering every path. -/
theorem install_spec_witness :
    ∃ cs2,
      install (fun _ => some ⟨200, "text/plain", "asset"⟩) [] =
        Except.ok cs2 ∧
      ∀ p ∈ PRECACHE_ASSETS,
        (storeMatch p (cachesGet CACHE_NAME cs2)).isSome = true :=
  (install_spec (fun _ => some ⟨200, "text/plain", "asset"⟩) []).1
    (fun p _ => rfl)

/-- Claim C10: no strategy inspects the status of a resolved response.  For
an arbitrary response, of any status whatsoever, a successful navigation
fetch writes it under ENTRY_HTML and returns it; a successful revalidation
fetch writes it under the request key; and on a store miss
Stale-While-Revalidate resolves with it and Cache-First returns it and
writes it, so error responses are cached and served like any other. -/
theorem no_status_inspection (r : Response) (req : String) (cs : Caches)
    (net : Nat → Option Response) (h0 : net 0 = some r) :
    (networkFirstNavigation req (some r) cs).1 = r ∧
    storeMatch ENTRY_HTML
        (cachesGet CACHE_NAME (networkFirstNavigation req (some r) cs).2)
      = some r ∧
    storeMatch req
        (cachesGet CACHE_NAME (staleWhileRevalidate req net cs).2.1)
      = some r ∧
    (storeMatch req (cachesGet CACHE_NAME cs) = none →
      (staleWhileRevalidate req net cs).1 = Except.ok (some r) ∧
      (cacheFirst req (some r) cs).1 = Except.ok r ∧
      storeMatch req (cachesGet CACHE_NAME (cacheFirst req (some r) cs).2.1)
        = some r) := by
  refine ⟨rfl, ?_, ?_, fun h => ⟨?_, ?_, ?_⟩⟩
  · simp [networkFirstNavigation, cachesGet_open_put, storeMatch_storePut_self]
  · simp [staleWhileRevalidate, h0, cachesGet_open_put,
      storeMatch_storePut_self]
  · simp [staleWhileRevalidate, cachesGet_open, h, h0, swrReturnLine,
      jsOfOption, JsVal.truthy, awaitJs]
  · simp [cacheFirst, cachesGet_open, h]
  · simp [cacheFirst, cachesGet_open, h, cachesGet_open_put,
      storeMatch_storePut_self]

/-- Witness for C10 at a concrete 404 error response over empty caches. -/
theorem no_status_inspection_witness :
    (networkFirstNavigation "/about" (some ⟨404, "text/html", "nope"⟩) []).1 =
      (⟨404, "text/html", "nope"⟩ : Response) ∧
    storeMatch ENTRY_HTML
        (cachesGet CACHE_NAME
          (networkFirstNavigation "/about"
            (some ⟨404, "text/html", "nope"⟩) []).2)
      = some ⟨404, "text/html", "nope"⟩ ∧
    storeMatch "/about"
        (cachesGet CACHE_NAME
          (staleWhileRevalidate "/about"
            (fun _ => some ⟨404, "text/html", "nope"⟩) []).2.1)
      = some ⟨404, "text/html", "nope"⟩ ∧
    (storeMatch "/about" (cachesGet CACHE_NAME []) = none →
      (staleWhileRevalidate "/about"
          (fun _ => some ⟨404, "text/html", "nope"⟩) []).1 =
        Except.ok (some ⟨404, "text/html", "nope"⟩) ∧
      (cacheFirst "/about" (some ⟨404, "text/html", "nope"⟩) []).1 =
        Except.ok ⟨404, "text/html", "nope"⟩ ∧
      storeMatch "/about"
          (cachesGet CACHE_NAME
            (cacheFirst "/about" (some ⟨404, "text/html", "nope"⟩) []).2.1)
        = some ⟨404, "text/html", "nope"⟩) :=
  no_status_inspection ⟨404, "text/html", "nope"⟩ "/about" []
    (fun _ => some ⟨404, "text/html", "nope"⟩) rfl

end ServiceWorker
